import Mathlib

/-!
Shallow embedding of `src/download-rds-logs.py`.

The script downloads RDS log files: a backoff-retried listing call
(lines 83-98), then for each listed file a name-filter / local-size
skip phase (lines 100-118) and a marker-based pagination loop with
exponential backoff and adaptive chunk-size reduction (lines 120-163).

Modelling conventions:
* Remote calls are driven by an oracle list of `Except Unit _` values,
  consumed in order: `Except.error ()` is a raised exception caught by the
  bare `except:` around the boto3 call; `Except.ok r` is a returned
  response dictionary.
* A boto3 response dictionary field that may be missing is an `Option`;
  `LogFileData` is `Option (Option String)` so that an absent key
  (`none`) is distinguished from a key whose value is Python `None`
  (`some none`), since the code distinguishes them
  (`'LogFileData' in result and result['LogFileData'] is not None`).
* Reading a missing key (`result['AdditionalDataPending']` /
  `result['Marker']` on line 141, `del result['LogFileData']` on
  line 159) raises `KeyError`, which nothing in the script catches:
  modelled as the terminal outcome `Outcome.crash`, which also aborts
  the per-file `for` loop in the run model.
* `time.sleep(math.pow(2, sleepcount))` is recorded as the exact
  duration `2 ^ sleepcount : Nat`; `math.pow(2, k)` is the exact real
  `2^k` for every attainable `k` here.
* The float comparison `lines > args.lines * 0.1` (line 146) is modelled
  by the exact rational comparison `10 * lines > args.lines` over `Int`;
  for the integer operands involved the IEEE double computation
  `args.lines * 0.1` never rounds across an integer boundary, so the two
  comparisons agree.
* File contents are `String`s; `os.stat(...).st_size` is the length of
  the stored content.
-/

/-- The literal truncation sentinel of line 144. -/
def SENTINEL : String := "[Your log message was truncated]\n"

/-- Python `s.endswith(t)`, as a suffix test on the character lists. -/
def pyEndsWith (s t : String) : Bool := List.isSuffixOf t.data s.data

/-- The configuration produced by `create_parser` (lines 21-68): initial
chunk line count `--lines` (default 1000), max backoff attempts
`--backoff` (default 10), optional name-filter `--match` (modelled as an
abstract predicate standing for `re.search`), and the output directory
`--output`. -/
structure Config where
  lines : Int
  backoff : Nat
  logfile_match : Option (String → Bool)
  output_dir : String

/-- One entry of `response['DescribeDBLogFiles']` (lines 99-101, 112). -/
structure LogFileDescriptor where
  LogFileName : String
  Size : Nat
deriving DecidableEq

/-- The `download_db_log_file_portion` response dictionary (lines 128-133):
each field is optional because the code itself tests key membership. -/
structure ChunkResult where
  LogFileData : Option (Option String)
  Marker : Option String
  AdditionalDataPending : Option Bool
deriving DecidableEq

/-- State of the listing retry loop, lines 83-94: the consecutive failure
counter plus the recorded sleep durations (observables, for the
backoff-schedule property). -/
structure ListState where
  sleepcount : Nat
  sleeps : List Nat
deriving DecidableEq

/-- Result of the listing retry loop (lines 96-98): the response on
success, `exhausted` when `sleepcount` reaches `args.backoff`, and the
model artifact `starved` when the oracle runs out of responses while the
loop would continue. -/
inductive ListOutcome (α : Type) where
  | ok (a : α)
  | exhausted
  | starved
deriving DecidableEq

/-- Lines 83-98: `while sleepcount < args.backoff: try: ... break
except: sleep(2^sleepcount); sleepcount += 1`, followed by the
`sleepcount == args.backoff` exhaustion check. -/
def describeRetry {α : Type} (backoff : Nat) :
    List (Except Unit α) → ListState → ListState × ListOutcome α
  | [], st =>
      if st.sleepcount < backoff then (st, ListOutcome.starved)
      else (st, ListOutcome.exhausted)
  | r :: rest, st =>
      if st.sleepcount < backoff then
        match r with
        | Except.ok a => (st, ListOutcome.ok a)
        | Except.error _ =>
            describeRetry backoff rest
              { sleepcount := st.sleepcount + 1
                sleeps := st.sleeps ++ [2 ^ st.sleepcount] }
      else (st, ListOutcome.exhausted)

/-- Mutable state of the pagination loop of lines 120-160, together with
the observables accumulated by the model: `written` is the byte content
appended to the destination file so far, `requests` the `(Marker,
NumberOfLines)` arguments of every issued chunk call, `sleeps` the
backoff sleep durations, `noData` the number of `No LogFileData` error
logs, and `truncRun` the number of consecutive truncation retries since
the last advance (reset whenever the marker advances). -/
structure LoopState where
  more_data : Bool
  marker : String
  sleepcount : Nat
  lines : Int
  chunk : Nat
  written : String
  requests : List (String × Int)
  sleeps : List Nat
  noData : Nat
  truncRun : Nat
deriving DecidableEq

/-- Terminal outcome of the pagination loop: `complete` (loop left with
`more_data` false), `exhausted` (`sleepcount == args.backoff`, line 162),
`crash` (an uncaught `KeyError` from line 141 or line 159), and the model
artifact `starved` (oracle exhausted while the loop would continue). -/
inductive Outcome where
  | complete
  | exhausted
  | crash
  | starved
deriving DecidableEq

/-- Lines 120-124: session start — `more_data = True`, `marker = "0"`,
`sleepcount = 0`, `lines = args.lines`, `chunk = 0`, empty file. -/
def initState (cfg : Config) : LoopState :=
  { more_data := true
    marker := "0"
    sleepcount := 0
    lines := cfg.lines
    chunk := 0
    written := ""
    requests := []
    sleeps := []
    noData := 0
    truncRun := 0 }

/-- One iteration of the pagination loop body (lines 126-160), given the
oracle's behaviour `r` for the issued chunk call. `Sum.inl` continues the
loop with the new state; `Sum.inr` leaves it with a terminal outcome
(only `Outcome.crash` arises here: a `KeyError` at line 141 when
`AdditionalDataPending` or `Marker` is absent, or at line 159's
`del result['LogFileData']` when that key is absent). -/
def chunkIter (cfg : Config) (r : Except Unit ChunkResult) (st : LoopState) :
    LoopState ⊕ (LoopState × Outcome) :=
  let st1 := { st with requests := st.requests ++ [(st.marker, st.lines)] }
  match r with
  | Except.error _ =>
      Sum.inl { st1 with
                sleeps := st1.sleeps ++ [2 ^ st1.sleepcount]
                sleepcount := st1.sleepcount + 1 }
  | Except.ok res =>
      let st2 := { st1 with sleepcount := 0 }
      match res.AdditionalDataPending, res.Marker with
      | some adp, some mk =>
        match res.LogFileData with
        | some (some data) =>
            if pyEndsWith data SENTINEL ∧ 10 * st2.lines > cfg.lines then
              Sum.inl { st2 with
                        lines := st2.lines - 10
                        truncRun := st2.truncRun + 1 }
            else
              Sum.inl { st2 with
                        written := st2.written ++ data
                        more_data := adp
                        marker := mk
                        chunk := st2.chunk + 1
                        truncRun := 0 }
        | some none =>
            Sum.inl { st2 with
                      noData := st2.noData + 1
                      more_data := adp
                      marker := mk
                      chunk := st2.chunk + 1
                      truncRun := 0 }
        | none =>
            Sum.inr ({ st2 with
                       noData := st2.noData + 1
                       more_data := adp
                       marker := mk
                       chunk := st2.chunk + 1
                       truncRun := 0 },
                     Outcome.crash)
      | _, _ => Sum.inr (st2, Outcome.crash)

/-- Lines 162-163: after the loop, `sleepcount == args.backoff` means the
per-file retries were exhausted; otherwise the loop ended normally. -/
def loopFinish (cfg : Config) (st : LoopState) : LoopState × Outcome :=
  (st, if st.sleepcount = cfg.backoff then Outcome.exhausted
       else Outcome.complete)

/-- The pagination loop of lines 125-163: `while more_data and
sleepcount < args.backoff`, consuming one oracle entry per issued call. -/
def downloadLoop (cfg : Config) :
    List (Except Unit ChunkResult) → LoopState → LoopState × Outcome
  | [], st =>
      if st.more_data ∧ st.sleepcount < cfg.backoff then (st, Outcome.starved)
      else loopFinish cfg st
  | r :: rest, st =>
      if st.more_data ∧ st.sleepcount < cfg.backoff then
        match chunkIter cfg r st with
        | Sum.inl st' => downloadLoop cfg rest st'
        | Sum.inr out => out
      else loopFinish cfg st

/-- The post-iteration state, whether the loop continues or stops. -/
def iterState : LoopState ⊕ (LoopState × Outcome) → LoopState
  | Sum.inl s => s
  | Sum.inr (s, _) => s

/-- The local filesystem: destination path to file content. -/
abbrev Fs : Type := List (String × String)

/-- `os.path.exists` / `os.stat` combined: the stored content, if any. -/
def fsLookup (fs : Fs) (path : String) : Option String :=
  List.lookup path fs

/-- `os.remove(destination)` (line 118). -/
def fsRemove (fs : Fs) (path : String) : Fs :=
  List.filter (fun e => !(e.1 == path)) fs

/-- `open(destination, "wb")` plus the writes of the session: the
destination ends up holding exactly the appended content. -/
def fsWrite (fs : Fs) (path content : String) : Fs :=
  (path, content) :: fsRemove fs path

/-- Scan for `os.path.basename`: keep the characters seen since the last
path separator. -/
def basenameAux : List Char → List Char → List Char
  | [], acc => acc.reverse
  | c :: rest, acc =>
      if c = '/' then basenameAux rest [] else basenameAux rest (c :: acc)

/-- `os.path.basename` (line 108) for POSIX paths: the part of the name
after the last separator. -/
def basename (s : String) : String := String.mk (basenameAux s.data [])

/-- `os.path.join` (line 108) for POSIX paths. -/
def joinPath (dir f : String) : String :=
  if dir = "" then f
  else if pyEndsWith dir "/" then dir ++ f
  else dir ++ "/" ++ f

/-- Line 108: `destination = os.path.join(args.output_dir,
os.path.basename(logfilename))`. -/
def destinationOf (cfg : Config) (name : String) : String :=
  joinPath cfg.output_dir (basename name)

/-- Line 104: a file is processed unless a pattern is configured and
`re.search` fails on the name. -/
def matchesFilter (cfg : Config) (name : String) : Bool :=
  match cfg.logfile_match with
  | none => true
  | some p => p name

/-- How one listed file ended: skipped by the name filter (line 104),
skipped because the local size matched (line 112), or downloaded with the
pagination loop's outcome. -/
inductive FileStatus where
  | skippedMatch
  | skippedExists
  | downloaded (oc : Outcome)
deriving DecidableEq

/-- Per-file observables: the chunk-call arguments issued, the content
written, the sleep durations, the `No LogFileData` error count, and the
`too many errors` error (line 163) with the file name it mentions. -/
structure FileReport where
  file : String
  status : FileStatus
  requests : List (String × Int)
  written : String
  sleeps : List Nat
  noData : Nat
  tooMany : Option String
deriving DecidableEq

/-- The download phase for one file (lines 120-163): run the pagination
loop from a fresh session and store the written content at the
destination. -/
def downloadTo (cfg : Config) (fs : Fs) (log : LogFileDescriptor)
    (responses : List (Except Unit ChunkResult)) : Fs × FileReport :=
  let dest := destinationOf cfg log.LogFileName
  let out := downloadLoop cfg responses (initState cfg)
  (fsWrite fs dest out.1.written,
   { file := log.LogFileName
     status := FileStatus.downloaded out.2
     requests := out.1.requests
     written := out.1.written
     sleeps := out.1.sleeps
     noData := out.1.noData
     tooMany := if out.2 = Outcome.exhausted then some log.LogFileName
                else none })

/-- One iteration of the per-file `for` loop (lines 99-163): name filter,
existing-file size check (skip on equality, delete on mismatch), then the
pagination loop. -/
def processFile (cfg : Config) (fs : Fs) (log : LogFileDescriptor)
    (responses : List (Except Unit ChunkResult)) : Fs × FileReport :=
  if matchesFilter cfg log.LogFileName then
    let dest := destinationOf cfg log.LogFileName
    match fsLookup fs dest with
    | some content =>
        if content.length = log.Size then
          (fs, { file := log.LogFileName
                 status := FileStatus.skippedExists
                 requests := []
                 written := ""
                 sleeps := []
                 noData := 0
                 tooMany := none })
        else
          downloadTo cfg (fsRemove fs dest) log responses
    | none => downloadTo cfg fs log responses
  else
    (fs, { file := log.LogFileName
           status := FileStatus.skippedMatch
           requests := []
           written := ""
           sleeps := []
           noData := 0
           tooMany := none })

/-- The whole `for log in response['DescribeDBLogFiles']` loop: each file
is paired with the oracle for its chunk calls. An uncaught `KeyError`
(`Outcome.crash`) propagates out of the loop and aborts the run, leaving
the remaining files unprocessed. -/
def runFiles (cfg : Config) (fs : Fs) :
    List (LogFileDescriptor × List (Except Unit ChunkResult)) →
    Fs × List FileReport
  | [] => (fs, [])
  | (log, rs) :: rest =>
      let fr := processFile cfg fs log rs
      if fr.2.status = FileStatus.downloaded Outcome.crash then
        (fr.1, [fr.2])
      else
        let tail := runFiles cfg fr.1 rest
        (tail.1, fr.2 :: tail.2)

/-! Concrete instances used to exercise the model. -/

/-- The argument parser's defaults: 1000 initial lines, 10 backoff
attempts, no name filter. -/
def defaultCfg : Config :=
  { lines := 1000, backoff := 10, logfile_match := none, output_dir := "." }

/-- A configuration whose initial line count 15 is not a multiple of 100. -/
def cfg15 : Config :=
  { lines := 15, backoff := 10, logfile_match := none, output_dir := "." }

/-- A configuration with backoff ceiling 1 and output directory `out`. -/
def cfgOneTry : Config :=
  { lines := 1000, backoff := 1, logfile_match := none, output_dir := "out" }

/-- A successful chunk response whose data is exactly the truncation
sentinel, with more data pending at marker `"0"`. -/
def truncResp : ChunkResult :=
  { LogFileData := some (some SENTINEL)
    Marker := some "0"
    AdditionalDataPending := some true }

/-- A successful final chunk response carrying data `"D"`. -/
def doneResp : ChunkResult :=
  { LogFileData := some (some "D")
    Marker := some "1"
    AdditionalDataPending := some false }

/-- A successful chunk response with no `LogFileData` key at all. -/
def noDataResp : ChunkResult :=
  { LogFileData := none
    Marker := some "1"
    AdditionalDataPending := some true }

/-- A successful chunk response with no `AdditionalDataPending` key. -/
def noPendingResp : ChunkResult :=
  { LogFileData := some (some "hello")
    Marker := some "1"
    AdditionalDataPending := none }

/-! Helper lemmas. -/

/-- One loop iteration changes the `(lines, truncRun)` pair only by the
guarded truncation shrink or by a reset of `truncRun`. -/
theorem chunkIter_lt_inv (cfg : Config) (P : Int → Nat → Prop)
    (hretry : ∀ l t, P l t → 10 * l > cfg.lines → P (l - 10) (t + 1))
    (hreset : ∀ l t, P l t → P l 0)
    (r : Except Unit ChunkResult) (st : LoopState)
    (h : P st.lines st.truncRun) :
    P (iterState (chunkIter cfg r st)).lines
      (iterState (chunkIter cfg r st)).truncRun := by
  rcases r with e | res
  · exact h
  rcases res with ⟨ld, mk, adp⟩
  rcases adp with _ | adp
  · exact h
  rcases mk with _ | mk
  · exact h
  rcases ld with _ | ld
  · exact hreset _ _ h
  rcases ld with _ | data
  · exact hreset _ _ h
  by_cases hc : pyEndsWith data SENTINEL ∧ 10 * st.lines > cfg.lines
  · have h2 := hretry st.lines st.truncRun h hc.2
    simpa [chunkIter, iterState, hc] using h2
  · simpa [chunkIter, iterState, hc] using hreset _ _ h

/-- The `(lines, truncRun)` invariant carried through the whole loop. -/
theorem downloadLoop_lt_inv (cfg : Config) (P : Int → Nat → Prop)
    (hretry : ∀ l t, P l t → 10 * l > cfg.lines → P (l - 10) (t + 1))
    (hreset : ∀ l t, P l t → P l 0)
    (rs : List (Except Unit ChunkResult)) :
    ∀ st : LoopState, P st.lines st.truncRun →
      P (downloadLoop cfg rs st).1.lines (downloadLoop cfg rs st).1.truncRun := by
  induction rs with
  | nil =>
      intro st h
      by_cases hg : st.more_data ∧ st.sleepcount < cfg.backoff
      · simpa [downloadLoop, hg] using h
      · simpa [downloadLoop, loopFinish, hg] using h
  | cons r rest ih =>
      intro st h
      by_cases hg : st.more_data ∧ st.sleepcount < cfg.backoff
      · have hstep := chunkIter_lt_inv cfg P hretry hreset r st h
        rcases hq : chunkIter cfg r st with st' | out
        · rw [hq] at hstep
          simp only [downloadLoop, hg, and_self, if_true]
          rw [hq]
          exact ih st' hstep
        · rw [hq] at hstep
          simp only [downloadLoop, hg, and_self, if_true]
          rw [hq]
          rcases out with ⟨s, oc⟩
          exact hstep
      · simpa [downloadLoop, loopFinish, hg] using h

/-- Running the listing retry loop through `k` consecutive failures, while
the ceiling is not yet reached, advances the failure counter by `k` and
sleeps `2^s, 2^(s+1), ...` in order. -/
theorem describeRetry_replicate {α : Type} (b : Nat) (k : Nat) :
    ∀ (rs : List (Except Unit α)) (st : ListState), st.sleepcount + k ≤ b →
    describeRetry b (List.replicate k (Except.error ()) ++ rs) st =
      describeRetry b rs
        { sleepcount := st.sleepcount + k
          sleeps := st.sleeps ++ (List.range' st.sleepcount k).map (fun i => 2 ^ i) } := by
  induction k with
  | zero =>
      intro rs st h
      simp [List.range']
  | succ k ih =>
      intro rs st h
      have hlt : st.sleepcount < b := by omega
      rw [List.replicate_succ, List.cons_append]
      show describeRetry b (Except.error () :: _) st = _
      rw [describeRetry, if_pos hlt]
      rw [ih _ _ (by simp; omega)]
      congr 1
      simp [List.range'_succ, List.append_assoc]
      omega

/-- Running the pagination loop through `k` consecutive chunk-call
failures, while the ceiling is not yet reached, keeps the session state
(marker, lines, written data) and advances only the failure counter, the
sleep log and the request log. -/
theorem downloadLoop_replicate (cfg : Config) (k : Nat) :
    ∀ (rs : List (Except Unit ChunkResult)) (st : LoopState),
      st.more_data = true → st.sleepcount + k ≤ cfg.backoff →
      downloadLoop cfg (List.replicate k (Except.error ()) ++ rs) st =
      downloadLoop cfg rs
        { st with
          sleepcount := st.sleepcount + k
          sleeps := st.sleeps ++ (List.range' st.sleepcount k).map (fun i => 2 ^ i)
          requests := st.requests ++ List.replicate k (st.marker, st.lines) } := by
  induction k with
  | zero =>
      intro rs st hm h
      simp [List.range']
  | succ k ih =>
      intro rs st hm h
      have hlt : st.sleepcount < cfg.backoff := by omega
      have hg : st.more_data ∧ st.sleepcount < cfg.backoff := ⟨by simp [hm], hlt⟩
      rw [List.replicate_succ, List.cons_append]
      show downloadLoop cfg (Except.error () :: _) st = _
      rw [downloadLoop, if_pos hg]
      show downloadLoop cfg _ _ = _
      rw [ih _ _ (by simp [hm]) (by simp; omega)]
      congr 1
      simp [List.range'_succ, List.append_assoc, List.replicate_succ]
      omega

/-- Every iteration issues exactly one chunk call, with the current
marker and line count as arguments. -/
theorem chunkIter_requests (cfg : Config) (r : Except Unit ChunkResult) (st : LoopState) :
    (iterState (chunkIter cfg r st)).requests = st.requests ++ [(st.marker, st.lines)] := by
  rcases r with e | res
  · rfl
  rcases res with ⟨ld, mk, adp⟩
  rcases adp with _ | adp
  · rfl
  rcases mk with _ | mk
  · rfl
  rcases ld with _ | ld
  · rfl
  rcases ld with _ | data
  · rfl
  by_cases hc : pyEndsWith data SENTINEL ∧ 10 * st.lines > cfg.lines
  · simp [chunkIter, iterState, hc]
  · simp [chunkIter, iterState, hc]

/-- The loop only appends to the request log. -/
theorem downloadLoop_requests (cfg : Config) (rs : List (Except Unit ChunkResult)) :
    ∀ st : LoopState, ∃ t, (downloadLoop cfg rs st).1.requests = st.requests ++ t := by
  induction rs with
  | nil =>
      intro st
      by_cases hg : st.more_data ∧ st.sleepcount < cfg.backoff
      · exact ⟨[], by simp [downloadLoop, hg]⟩
      · exact ⟨[], by simp [downloadLoop, loopFinish, hg]⟩
  | cons r rest ih =>
      intro st
      by_cases hg : st.more_data ∧ st.sleepcount < cfg.backoff
      · have hreq := chunkIter_requests cfg r st
        rcases hq : chunkIter cfg r st with st' | out
        · rw [hq] at hreq
          simp only [iterState] at hreq
          obtain ⟨t, ht⟩ := ih st'
          refine ⟨(st.marker, st.lines) :: t, ?_⟩
          simp only [downloadLoop, hg, and_self, if_true]
          rw [hq, ht, hreq]
          simp
        · rw [hq] at hreq
          rcases out with ⟨s, oc⟩
          simp only [iterState] at hreq
          refine ⟨[(st.marker, st.lines)], ?_⟩
          simp only [downloadLoop, hg, and_self, if_true]
          rw [hq]
          exact hreq
      · exact ⟨[], by simp [downloadLoop, loopFinish, hg]⟩

/-- If the loop is entered at all, its first chunk call carries the
session's starting marker and line count. -/
theorem downloadLoop_first_request (cfg : Config) (r : Except Unit ChunkResult)
    (rest : List (Except Unit ChunkResult)) (st : LoopState)
    (hreq : st.requests = []) (hm : st.more_data = true)
    (hs : st.sleepcount < cfg.backoff) :
    (downloadLoop cfg (r :: rest) st).1.requests.head? = some (st.marker, st.lines) := by
  have hg : st.more_data ∧ st.sleepcount < cfg.backoff := ⟨by simp [hm], hs⟩
  have hit := chunkIter_requests cfg r st
  rcases hq : chunkIter cfg r st with st' | out
  · rw [hq] at hit
    simp only [iterState] at hit
    obtain ⟨t, ht⟩ := downloadLoop_requests cfg rest st'
    simp only [downloadLoop, hg, and_self, if_true]
    rw [hq, ht, hit, hreq]
    simp
  · rw [hq] at hit
    rcases out with ⟨s, oc⟩
    simp only [iterState] at hit
    simp only [downloadLoop, hg, and_self, if_true]
    rw [hq]
    show (s, oc).1.requests.head? = _
    rw [hit, hreq]
    simp

/-- Looking up a freshly written destination returns its content. -/
theorem fsLookup_fsWrite (fs : Fs) (p c : String) :
    fsLookup (fsWrite fs p c) p = some c := by
  simp [fsLookup, fsWrite, List.lookup]

/-- The download phase stores the loop's written bytes at the
destination, reports the loop's outcome, and raises the `too many
errors` report exactly on exhaustion. -/
theorem downloadTo_spec (cfg : Config) (fs : Fs) (log : LogFileDescriptor)
    (rs : List (Except Unit ChunkResult)) :
    (downloadTo cfg fs log rs).2.status
      = FileStatus.downloaded (downloadLoop cfg rs (initState cfg)).2
    ∧ (downloadTo cfg fs log rs).2.written
      = (downloadLoop cfg rs (initState cfg)).1.written
    ∧ (downloadTo cfg fs log rs).2.requests
      = (downloadLoop cfg rs (initState cfg)).1.requests
    ∧ fsLookup (downloadTo cfg fs log rs).1 (destinationOf cfg log.LogFileName)
        = some (downloadTo cfg fs log rs).2.written
    ∧ (downloadTo cfg fs log rs).2.tooMany
      = (if (downloadLoop cfg rs (initState cfg)).2 = Outcome.exhausted
         then some log.LogFileName else none) :=
  ⟨rfl, rfl, rfl, fsLookup_fsWrite _ _ _, rfl⟩

/-- A file whose report says `downloaded` went through `downloadTo`,
either on the unchanged filesystem or after removing the stale copy. -/
theorem processFile_download_cases (cfg : Config) (fs : Fs)
    (log : LogFileDescriptor) (rs : List (Except Unit ChunkResult)) (oc : Outcome)
    (h : (processFile cfg fs log rs).2.status = FileStatus.downloaded oc) :
    processFile cfg fs log rs = downloadTo cfg fs log rs
    ∨ processFile cfg fs log rs
        = downloadTo cfg (fsRemove fs (destinationOf cfg log.LogFileName)) log rs := by
  by_cases hmf : matchesFilter cfg log.LogFileName = true
  · rcases hfl : fsLookup fs (destinationOf cfg log.LogFileName) with _ | c
    · left
      simp [processFile, hmf, hfl]
    · by_cases hsz : c.length = log.Size
      · exfalso
        have hskip : (processFile cfg fs log rs).2.status = FileStatus.skippedExists := by
          simp [processFile, hmf, hfl, hsz]
        rw [hskip] at h
        simp at h
      · right
        simp [processFile, hmf, hfl, hsz]
  · exfalso
    have hmf' : matchesFilter cfg log.LogFileName = false := by
      revert hmf
      cases matchesFilter cfg log.LogFileName <;> simp
    have hskip : (processFile cfg fs log rs).2.status = FileStatus.skippedMatch := by
      simp [processFile, hmf']
    rw [hskip] at h
    simp at h

/-- On exhaustion the download phase's error report names the file. -/
theorem downloadTo_exhausted_report (cfg : Config) (fs2 : Fs)
    (log : LogFileDescriptor) (rs : List (Except Unit ChunkResult))
    (h : (downloadTo cfg fs2 log rs).2.status
      = FileStatus.downloaded Outcome.exhausted) :
    (downloadTo cfg fs2 log rs).2.tooMany = some log.LogFileName := by
  have hoc : (downloadLoop cfg rs (initState cfg)).2 = Outcome.exhausted := by
    have hst := (downloadTo_spec cfg fs2 log rs).1
    rw [hst] at h
    exact (FileStatus.downloaded.injEq _ _).mp h
  rw [(downloadTo_spec cfg fs2 log rs).2.2.2.2, hoc]
  simp

/-! Claim theorems. -/

/-- Claim C1 (code bug at the failing input): on a successful chunk
response with no `LogFileData` key, the code logs the `No LogFileData`
error and advances the pending flag, marker and chunk counter, but then
line 159's `del result['LogFileData']` raises an uncaught `KeyError`:
instead of proceeding to the next iteration of the pagination loop, the
whole run aborts, leaving a second listed file unprocessed. Nothing is
written for the chunk. (Only when the key is present with value `None`
does the claimed continue-behaviour occur.) -/
theorem dataFieldAbsent_crashes :
    (downloadLoop defaultCfg [Except.ok noDataResp] (initState defaultCfg)).2
      = Outcome.crash
    ∧ (downloadLoop defaultCfg [Except.ok noDataResp] (initState defaultCfg)).1.noData = 1
    ∧ (downloadLoop defaultCfg [Except.ok noDataResp] (initState defaultCfg)).1.written = ""
    ∧ (runFiles defaultCfg []
        [(⟨"a.log", 5⟩, [Except.ok noDataResp]), (⟨"b.log", 5⟩, [])]).2.length = 1 := by
  refine ⟨by decide, by decide, by decide, by decide⟩

/-- Claim C3 (code bug at the failing input): a successful chunk response
without the `AdditionalDataPending` key is not treated as `False`; the
unconditional read `result['AdditionalDataPending']` in the line-141 log
statement raises an uncaught `KeyError` before the guarded check of line
155 runs, so the loop crashes without processing the chunk (nothing is
written) and the run aborts instead of terminating the file normally. -/
theorem pendingFlagAbsent_crashes :
    (downloadLoop defaultCfg [Except.ok noPendingResp] (initState defaultCfg)).2
      = Outcome.crash
    ∧ (downloadLoop defaultCfg [Except.ok noPendingResp] (initState defaultCfg)).1.written = ""
    ∧ (runFiles defaultCfg []
        [(⟨"a.log", 5⟩, [Except.ok noPendingResp]), (⟨"b.log", 5⟩, [])]).2.length = 1 := by
  refine ⟨by decide, by decide, by decide⟩

/-- Claim C2 (counterexample): with configured initial line count 15, two
truncated responses drive the requested line count to -5, strictly below
10 percent of the initial count (1.5): the claimed floor fails for
initial counts that are not multiples of 100. -/
theorem lineFloor_counterexample :
    (downloadLoop cfg15 [Except.ok truncResp, Except.ok truncResp]
        (initState cfg15)).1.lines = -5
    ∧ 10 * (downloadLoop cfg15 [Except.ok truncResp, Except.ok truncResp]
        (initState cfg15)).1.lines < cfg15.lines := by
  refine ⟨by decide, by decide⟩

/-- Claim C2 (amended): the requested line count is reduced by 10 only
while strictly above 10 percent of the configured initial count, so for a
nonnegative initial count it always stays strictly above 10 percent of
the initial minus 10 lines; when the initial count is a multiple of 100
(as in the spec's examples 100 and 1000) it never drops below the exact
10 percent floor. -/
theorem lineFloor_amended (cfg : Config) (rs : List (Except Unit ChunkResult))
    (h : 0 ≤ cfg.lines) :
    10 * (downloadLoop cfg rs (initState cfg)).1.lines > cfg.lines - 100
    ∧ ((100 : Int) ∣ cfg.lines →
        10 * (downloadLoop cfg rs (initState cfg)).1.lines ≥ cfg.lines) := by
  have key := downloadLoop_lt_inv cfg
    (fun l _ => 10 * l > cfg.lines - 100
      ∧ ((100 : Int) ∣ cfg.lines → (10 : Int) ∣ l ∧ 10 * l ≥ cfg.lines))
    ?hretry ?hreset rs (initState cfg) ?hinit
  · exact ⟨key.1, fun hd => (key.2 hd).2⟩
  case hretry =>
    intro l t hl hgt
    refine ⟨by omega, fun hd => ?_⟩
    obtain ⟨hdiv, hge⟩ := hl.2 hd
    obtain ⟨a, ha⟩ := hdiv
    obtain ⟨m, hm⟩ := hd
    exact ⟨⟨a - 1, by omega⟩, by omega⟩
  case hreset =>
    intro l t hl
    exact hl
  case hinit =>
    refine ⟨by simp [initState]; omega, fun hd => ?_⟩
    obtain ⟨m, hm⟩ := hd
    refine ⟨⟨10 * m, by simp [initState]; omega⟩, by simp [initState]; omega⟩

/-- Witness for the amended claim C2 at the default configuration. -/
theorem lineFloor_amended_witness :
    (0 : Int) ≤ defaultCfg.lines
    ∧ (10 * (downloadLoop defaultCfg [Except.ok truncResp]
          (initState defaultCfg)).1.lines > defaultCfg.lines - 100
       ∧ ((100 : Int) ∣ defaultCfg.lines →
           10 * (downloadLoop defaultCfg [Except.ok truncResp]
             (initState defaultCfg)).1.lines ≥ defaultCfg.lines)) :=
  ⟨by decide, lineFloor_amended defaultCfg [Except.ok truncResp] (by decide)⟩

/-- Claim C4: with ceiling `N`, both retry loops (the listing call and
the per-file chunk loop) use the success value of an operation that fails
exactly `N-1` times and then succeeds, and end in the exhausted outcome
(reported as an error, with no further attempt in that scope) after `N`
consecutive failures. -/
theorem retryCeiling (N : Nat) (hN : 1 ≤ N) (a : Nat) (L : Int) :
    (@describeRetry Nat N (List.replicate (N - 1) (Except.error ()) ++ [Except.ok a])
        { sleepcount := 0, sleeps := [] }).2 = ListOutcome.ok a
    ∧ (@describeRetry Nat N (List.replicate N (Except.error ()))
        { sleepcount := 0, sleeps := [] }).2 = ListOutcome.exhausted
    ∧ (downloadLoop ⟨L, N, none, "."⟩ (List.replicate N (Except.error ()))
        (initState ⟨L, N, none, "."⟩)).2 = Outcome.exhausted
    ∧ (downloadLoop ⟨L, N, none, "."⟩
        (List.replicate (N - 1) (Except.error ()) ++ [Except.ok doneResp])
        (initState ⟨L, N, none, "."⟩)).2 = Outcome.complete
    ∧ (downloadLoop ⟨L, N, none, "."⟩
        (List.replicate (N - 1) (Except.error ()) ++ [Except.ok doneResp])
        (initState ⟨L, N, none, "."⟩)).1.written = "D" := by
  have hlt : N - 1 < N := by omega
  have hends : pyEndsWith "D" SENTINEL = false := by decide
  have h0 : ¬ (0 = N) := by omega
  refine ⟨?_, ?_, ?_, ?_, ?_⟩
  · rw [describeRetry_replicate N (N - 1) [Except.ok a] ⟨0, []⟩
        (by show 0 + (N - 1) ≤ N; omega)]
    simp [describeRetry, hlt]
  · rw [← List.append_nil (List.replicate N (Except.error ())),
        describeRetry_replicate N N [] ⟨0, []⟩ (by show 0 + N ≤ N; omega)]
    simp [describeRetry]
  · rw [← List.append_nil (List.replicate N (Except.error ())),
        downloadLoop_replicate _ N [] (initState _) rfl (by show 0 + N ≤ N; omega)]
    simp [downloadLoop, loopFinish, initState]
  · rw [downloadLoop_replicate _ (N - 1) [Except.ok doneResp] (initState _) rfl
        (by show 0 + (N - 1) ≤ N; omega)]
    simp [downloadLoop, initState, hlt, chunkIter, doneResp, hends, loopFinish, h0]
  · rw [downloadLoop_replicate _ (N - 1) [Except.ok doneResp] (initState _) rfl
        (by show 0 + (N - 1) ≤ N; omega)]
    simp [downloadLoop, initState, hlt, chunkIter, doneResp, hends, loopFinish, h0]

/-- Witness for claim C4 at ceiling 3. -/
theorem retryCeiling_witness :
    1 ≤ 3
    ∧ (@describeRetry Nat 3 (List.replicate (3 - 1) (Except.error ()) ++ [Except.ok 7])
        { sleepcount := 0, sleeps := [] }).2 = ListOutcome.ok 7
    ∧ (downloadLoop ⟨1000, 3, none, "."⟩ (List.replicate 3 (Except.error ()))
        (initState ⟨1000, 3, none, "."⟩)).2 = Outcome.exhausted :=
  ⟨by decide, (retryCeiling 3 (by decide) 7 1000).1,
   (retryCeiling 3 (by decide) 7 1000).2.2.1⟩

/-- Claim C9: in both retry loops, the sleep performed after the k-th
consecutive failure (0-indexed) lasts exactly `2^k` time units: with
ceiling `N`, `N` consecutive failures sleep exactly
`2^0, 2^1, ..., 2^(N-1)` in order. -/
theorem backoffSchedule (N : Nat) (L : Int) :
    (@describeRetry Nat N (List.replicate N (Except.error ()))
        { sleepcount := 0, sleeps := [] }).1.sleeps
      = (List.range N).map (fun k => 2 ^ k)
    ∧ (downloadLoop ⟨L, N, none, "."⟩ (List.replicate N (Except.error ()))
        (initState ⟨L, N, none, "."⟩)).1.sleeps
      = (List.range N).map (fun k => 2 ^ k) := by
  constructor
  · rw [← List.append_nil (List.replicate N (Except.error ())),
        describeRetry_replicate N N [] ⟨0, []⟩ (by show 0 + N ≤ N; omega)]
    simp [describeRetry, List.range_eq_range']
  · rw [← List.append_nil (List.replicate N (Except.error ())),
        downloadLoop_replicate _ N [] (initState _) rfl (by show 0 + N ≤ N; omega)]
    simp [downloadLoop, loopFinish, initState, List.range_eq_range']

/-- Claim C5: with the configured initial line count 1000 still in force,
a successful chunk response whose data ends with the truncation sentinel
makes the loop retry with line count 990 at the same marker: the state
advances only by the request just logged, the reset failure counter and
the truncation-run counter, while the written content, the marker and the
pending flag are untouched — the truncated data is discarded, not
appended. -/
theorem truncationRetry (cfg : Config) (st : LoopState) (data mk : String)
    (adp : Bool) (rest : List (Except Unit ChunkResult))
    (hcfg : cfg.lines = 1000) (hst : st.lines = 1000)
    (hm : st.more_data = true) (hs : st.sleepcount < cfg.backoff)
    (hd : pyEndsWith data SENTINEL = true) :
    downloadLoop cfg
      (Except.ok { LogFileData := some (some data), Marker := some mk, AdditionalDataPending := some adp } :: rest) st =
    downloadLoop cfg rest
      { st with
        sleepcount := 0
        lines := 990
        requests := st.requests ++ [(st.marker, 1000)]
        truncRun := st.truncRun + 1 } := by
  have hg : st.more_data ∧ st.sleepcount < cfg.backoff := ⟨by simp [hm], hs⟩
  have hcond : pyEndsWith data SENTINEL ∧ 10 * st.lines > cfg.lines := by
    refine ⟨by simp [hd], by rw [hst, hcfg]; norm_num⟩
  have hstep : chunkIter cfg
      (Except.ok { LogFileData := some (some data), Marker := some mk, AdditionalDataPending := some adp }) st
      = Sum.inl { st with
                  requests := st.requests ++ [(st.marker, st.lines)]
                  sleepcount := 0
                  lines := st.lines - 10
                  truncRun := st.truncRun + 1 } := by
    simp [chunkIter, hcond]
  rw [downloadLoop, if_pos hg, hstep]
  simp [hst]

/-- Witness for claim C5: the first chunk of the default session comes
back truncated and the session retries marker `"0"` with 990 lines. -/
theorem truncationRetry_witness :
    pyEndsWith SENTINEL SENTINEL = true
    ∧ downloadLoop defaultCfg [Except.ok truncResp] (initState defaultCfg) =
      downloadLoop defaultCfg []
        { initState defaultCfg with
          sleepcount := 0
          lines := 990
          requests := (initState defaultCfg).requests
            ++ [((initState defaultCfg).marker, 1000)]
          truncRun := (initState defaultCfg).truncRun + 1 } :=
  ⟨by decide,
   truncationRetry defaultCfg (initState defaultCfg) SENTINEL "0" true []
     rfl rfl rfl (by decide) (by decide)⟩

/-- Claim C6: when a file's pagination loop ends with the consecutive
failure counter at the ceiling, the `too many errors` error names that
file, the partially written destination file is present (not deleted)
holding exactly the bytes written so far, and the run goes on to process
the remaining files in the listing. -/
theorem exhaustedFile_continues (cfg : Config) (fs : Fs) (log : LogFileDescriptor)
    (rs : List (Except Unit ChunkResult))
    (rest : List (LogFileDescriptor × List (Except Unit ChunkResult)))
    (h : (processFile cfg fs log rs).2.status = FileStatus.downloaded Outcome.exhausted) :
    (processFile cfg fs log rs).2.tooMany = some log.LogFileName
    ∧ fsLookup (processFile cfg fs log rs).1 (destinationOf cfg log.LogFileName)
        = some (processFile cfg fs log rs).2.written
    ∧ runFiles cfg fs ((log, rs) :: rest)
        = ((runFiles cfg (processFile cfg fs log rs).1 rest).1,
           (processFile cfg fs log rs).2
             :: (runFiles cfg (processFile cfg fs log rs).1 rest).2) := by
  have hdl := processFile_download_cases cfg fs log rs Outcome.exhausted h
  have hrun : ¬ (processFile cfg fs log rs).2.status
      = FileStatus.downloaded Outcome.crash := by
    rw [h]
    simp
  refine ⟨?_, ?_, ?_⟩
  · rcases hdl with hdl | hdl <;>
    · rw [hdl] at h ⊢
      exact downloadTo_exhausted_report cfg _ log rs h
  · rcases hdl with hdl | hdl <;>
    · rw [hdl]
      exact (downloadTo_spec cfg _ log rs).2.2.2.1
  · rw [runFiles]
    simp only [hrun, if_false]

/-- Witness for claim C6: with ceiling 1 and one failing chunk call, file
`a.log` is reported exhausted, its (empty) partial file remains on disk,
and the run would continue past it. -/
theorem exhaustedFile_continues_witness :
    (processFile cfgOneTry [] ⟨"a.log", 5⟩ [Except.error ()]).2.status
      = FileStatus.downloaded Outcome.exhausted
    ∧ (processFile cfgOneTry [] ⟨"a.log", 5⟩ [Except.error ()]).2.tooMany = some "a.log"
    ∧ fsLookup (processFile cfgOneTry [] ⟨"a.log", 5⟩ [Except.error ()]).1
        (destinationOf cfgOneTry "a.log")
        = some (processFile cfgOneTry [] ⟨"a.log", 5⟩ [Except.error ()]).2.written
    ∧ runFiles cfgOneTry [] [(⟨"a.log", 5⟩, [Except.error ()])]
        = ((runFiles cfgOneTry
              (processFile cfgOneTry [] ⟨"a.log", 5⟩ [Except.error ()]).1 []).1,
           (processFile cfgOneTry [] ⟨"a.log", 5⟩ [Except.error ()]).2
             :: (runFiles cfgOneTry
                  (processFile cfgOneTry [] ⟨"a.log", 5⟩ [Except.error ()]).1 []).2) :=
  ⟨by decide,
   (exhaustedFile_continues cfgOneTry [] ⟨"a.log", 5⟩ [Except.error ()] [] (by decide)).1,
   (exhaustedFile_continues cfgOneTry [] ⟨"a.log", 5⟩ [Except.error ()] [] (by decide)).2.1,
   (exhaustedFile_continues cfgOneTry [] ⟨"a.log", 5⟩ [Except.error ()] [] (by decide)).2.2⟩

/-- Claim C7: a listed file that passes the name filter and already
exists locally with a size different from the remote descriptor's size is
deleted and re-downloaded in full: the first chunk request carries marker
`"0"` and the configured initial line count, and afterwards the
destination holds exactly the bytes of the fresh download session (which
started from an empty file), independent of the old content. -/
theorem sizeMismatch_redownload (cfg : Config) (fs : Fs) (log : LogFileDescriptor)
    (c : String) (r0 : Except Unit ChunkResult) (rs' : List (Except Unit ChunkResult))
    (hmf : matchesFilter cfg log.LogFileName = true)
    (hl : fsLookup fs (destinationOf cfg log.LogFileName) = some c)
    (hsz : c.length ≠ log.Size)
    (hb : 0 < cfg.backoff) :
    (processFile cfg fs log (r0 :: rs')).2.requests.head? = some ("0", cfg.lines)
    ∧ fsLookup (processFile cfg fs log (r0 :: rs')).1 (destinationOf cfg log.LogFileName)
        = some (processFile cfg fs log (r0 :: rs')).2.written
    ∧ (processFile cfg fs log (r0 :: rs')).2.written
        = (downloadLoop cfg (r0 :: rs') (initState cfg)).1.written := by
  have hpf : processFile cfg fs log (r0 :: rs')
      = downloadTo cfg (fsRemove fs (destinationOf cfg log.LogFileName)) log (r0 :: rs') := by
    simp [processFile, hmf, hl, hsz]
  rw [hpf]
  refine ⟨?_, (downloadTo_spec cfg _ log _).2.2.2.1, rfl⟩
  rw [(downloadTo_spec cfg _ log _).2.2.1]
  exact downloadLoop_first_request cfg r0 rs' (initState cfg) rfl rfl hb

/-- Witness for claim C7: a stale 3-byte copy of a 5-byte remote file is
replaced by a fresh download that starts at marker `"0"`. -/
theorem sizeMismatch_redownload_witness :
    ("abc".length ≠ ((5 : Nat)))
    ∧ (processFile cfgOneTry [("out/stale.log", "abc")] ⟨"stale.log", 5⟩
        [Except.ok doneResp]).2.requests.head? = some ("0", cfgOneTry.lines)
    ∧ fsLookup (processFile cfgOneTry [("out/stale.log", "abc")] ⟨"stale.log", 5⟩
        [Except.ok doneResp]).1 (destinationOf cfgOneTry "stale.log")
        = some (processFile cfgOneTry [("out/stale.log", "abc")] ⟨"stale.log", 5⟩
            [Except.ok doneResp]).2.written
    ∧ (processFile cfgOneTry [("out/stale.log", "abc")] ⟨"stale.log", 5⟩
        [Except.ok doneResp]).2.written
        = (downloadLoop cfgOneTry [Except.ok doneResp] (initState cfgOneTry)).1.written :=
  ⟨by decide,
   (sizeMismatch_redownload cfgOneTry [("out/stale.log", "abc")] ⟨"stale.log", 5⟩
      "abc" (Except.ok doneResp) [] (by decide) (by decide) (by decide) (by decide)).1,
   (sizeMismatch_redownload cfgOneTry [("out/stale.log", "abc")] ⟨"stale.log", 5⟩
      "abc" (Except.ok doneResp) [] (by decide) (by decide) (by decide) (by decide)).2.1,
   (sizeMismatch_redownload cfgOneTry [("out/stale.log", "abc")] ⟨"stale.log", 5⟩
      "abc" (Except.ok doneResp) [] (by decide) (by decide) (by decide) (by decide)).2.2⟩

/-- Claim C8: a listed file that already exists locally with exactly the
remote descriptor's size is skipped: no chunk request is issued for it
and the filesystem is left unchanged. -/
theorem sizeMatch_skip (cfg : Config) (fs : Fs) (log : LogFileDescriptor)
    (rs : List (Except Unit ChunkResult)) (c : String)
    (hl : fsLookup fs (destinationOf cfg log.LogFileName) = some c)
    (hsz : c.length = log.Size) :
    (processFile cfg fs log rs).1 = fs
    ∧ (processFile cfg fs log rs).2.requests = [] := by
  by_cases hmf : matchesFilter cfg log.LogFileName = true
  · constructor <;> simp [processFile, hmf, hl, hsz]
  · have hmf' : matchesFilter cfg log.LogFileName = false := by
      revert hmf
      cases matchesFilter cfg log.LogFileName <;> simp
    constructor <;> simp [processFile, hmf']

/-- Witness for claim C8: a local 5-byte copy of a 5-byte remote file is
skipped without any chunk request and the filesystem is untouched. -/
theorem sizeMatch_skip_witness :
    ("abcde".length = (5 : Nat))
    ∧ (processFile cfgOneTry [("out/done.log", "abcde")] ⟨"done.log", 5⟩
        [Except.ok doneResp]).1 = [("out/done.log", "abcde")]
    ∧ (processFile cfgOneTry [("out/done.log", "abcde")] ⟨"done.log", 5⟩
        [Except.ok doneResp]).2.requests = [] :=
  ⟨by decide,
   (sizeMatch_skip cfgOneTry [("out/done.log", "abcde")] ⟨"done.log", 5⟩
      [Except.ok doneResp] "abcde" (by decide) (by decide)).1,
   (sizeMatch_skip cfgOneTry [("out/done.log", "abcde")] ⟨"done.log", 5⟩
      [Except.ok doneResp] "abcde" (by decide) (by decide)).2⟩

/-- Claim C10: truncation retries at one marker are bounded: each retry
strictly decreases the requested line count by 10 and happens only while
the count is strictly above 10 percent of the initial, so the number of
consecutive truncation retries since the last advance never exceeds
`ceil(0.9 * initial / 10) + 1` (written with integer division as
`(9 * initial + 99) / 100 + 1`). -/
theorem truncationRunBound (cfg : Config) (rs : List (Except Unit ChunkResult))
    (h : 0 ≤ cfg.lines) :
    ((downloadLoop cfg rs (initState cfg)).1.truncRun : Int)
      ≤ (9 * cfg.lines + 99) / 100 + 1 := by
  have key := downloadLoop_lt_inv cfg
    (fun l t => 10 * l + 100 * (t : Int) ≤ 10 * cfg.lines ∧ 10 * l > cfg.lines - 100)
    ?hretry ?hreset rs (initState cfg) ?hinit
  · obtain ⟨h1, h2⟩ := key
    omega
  case hretry =>
    intro l t hl hgt
    refine ⟨?_, by omega⟩
    push_cast
    push_cast at hl
    omega
  case hreset =>
    intro l t hl
    refine ⟨?_, hl.2⟩
    push_cast
    push_cast at hl
    omega
  case hinit =>
    show 10 * cfg.lines + 100 * ((0 : Nat) : Int) ≤ 10 * cfg.lines
      ∧ 10 * cfg.lines > cfg.lines - 100
    push_cast
    omega

/-- Witness for claim C10 at the default configuration: a single
truncation retry is well within the bound 91. -/
theorem truncationRunBound_witness :
    (0 : Int) ≤ defaultCfg.lines
    ∧ ((downloadLoop defaultCfg [Except.ok truncResp]
          (initState defaultCfg)).1.truncRun : Int)
        ≤ (9 * defaultCfg.lines + 99) / 100 + 1 :=
  ⟨by decide, truncationRunBound defaultCfg [Except.ok truncResp] (by decide)⟩
